import Mathlib

/-!
Shallow embedding of the load-tester core of iqlusioninc/atom-intents
(demo/simulation/load_tester.py): the per-request outcome record, the
aggregated statistics with their derived metrics, the request-outcome
classification, the worker-pool sizing arithmetic, and the result
aggregation loop.  Python floats are embedded as exact rationals; Python
`int()` truncation on the nonnegative quantities involved is `Nat.floor`.
-/

/-- One per-request outcome (`TestResult` dataclass, load_tester.py lines
19-26).  The wall-clock `timestamp` field (a `time.time()` side effect,
unused by any aggregation) is omitted. -/
structure TestResult where
  success : Bool
  latency_ms : ℚ
  status_code : Nat
  error : String
deriving Repr, DecidableEq

/-- Aggregated statistics (`TestStats` dataclass, lines 29-38).  The Python
dict `errors` is embedded as an insertion-ordered association list, matching
dict iteration order. -/
structure TestStats where
  total_requests : Nat
  successful_requests : Nat
  failed_requests : Nat
  latencies : List ℚ
  errors : List (String × Nat)
  start_time : ℚ
  end_time : ℚ
deriving Repr, DecidableEq

/-- `TestStats.success_rate` (lines 40-44). -/
def success_rate (s : TestStats) : ℚ :=
  if s.total_requests = 0 then 0
  else (s.successful_requests : ℚ) / (s.total_requests : ℚ) * 100

/-- `statistics.mean`: arithmetic mean of a sample. -/
def pyMean (l : List ℚ) : ℚ := l.sum / (l.length : ℚ)

/-- `TestStats.avg_latency` (lines 46-50). -/
def avg_latency (s : TestStats) : ℚ :=
  if s.latencies = [] then 0 else pyMean s.latencies

/-- `statistics.median`: sort ascending; middle element for odd length,
average of the two middle elements for even length. -/
def pyMedian (l : List ℚ) : ℚ :=
  let sorted := List.insertionSort (fun a b => a ≤ b) l
  let n := l.length
  if n % 2 = 1 then sorted.getD (n / 2) 0
  else (sorted.getD (n / 2 - 1) 0 + sorted.getD (n / 2) 0) / 2

/-- `TestStats.p50_latency` (lines 52-56): `statistics.median` of the
(unsorted) latency sample. -/
def p50_latency (s : TestStats) : ℚ :=
  if s.latencies = [] then 0 else pyMedian s.latencies

/-- `TestStats.p95_latency` (lines 58-64): `sorted[int(len * 0.95)]`. -/
def p95_latency (s : TestStats) : ℚ :=
  if s.latencies = [] then 0
  else
    let sorted := List.insertionSort (fun a b => a ≤ b) s.latencies
    sorted.getD ⌊(sorted.length : ℚ) * (95 / 100)⌋₊ 0

/-- `TestStats.p99_latency` (lines 66-72):
`sorted[min(int(len * 0.99), len - 1)]`. -/
def p99_latency (s : TestStats) : ℚ :=
  if s.latencies = [] then 0
  else
    let sorted := List.insertionSort (fun a b => a ≤ b) s.latencies
    sorted.getD (min ⌊(sorted.length : ℚ) * (99 / 100)⌋₊ (sorted.length - 1)) 0

/-- `TestStats.requests_per_second` (lines 74-79). -/
def requests_per_second (s : TestStats) : ℚ :=
  let duration := s.end_time - s.start_time
  if duration = 0 then 0 else (s.total_requests : ℚ) / duration

/-- Nearest-rank percentile as the spec words it (spec 4.5): sort the
latencies ascending, take index = floor(len × p), return the element at
that index.  Used to compare the source's percentile accessors against the
spec's description. -/
def specNearestRank (p : ℚ) (l : List ℚ) : ℚ :=
  (List.insertionSort (fun a b => a ≤ b) l).getD ⌊(l.length : ℚ) * p⌋₊ 0

/-- Nearest-rank percentile with the index clamped to len − 1, the spec's
wording for p99. -/
def specNearestRank99 (l : List ℚ) : ℚ :=
  (List.insertionSort (fun a b => a ≤ b) l).getD
    (min ⌊(l.length : ℚ) * (99 / 100)⌋₊ (l.length - 1)) 0

/-- The outcome of attempting one HTTP POST, as the `try` body of
`LoadTester._make_request` (lines 127-166) can observe it: a response with
some status, an `asyncio.TimeoutError`, an `aiohttp.ClientError` (carrying
its type name), or any other exception (carrying its message).  The four
cases are the three `except` clauses plus the normal return. -/
inductive RequestEvent where
  | response (status : Nat)
  | timeoutError
  | clientError (typeName : String)
  | otherError (msg : String)
deriving Repr, DecidableEq

/-- `LoadTester._make_request` classification (lines 144-166): a total
function of the observed event — every event yields a `TestResult` and no
exception escapes.  The `except` clauses are checked in source order
(timeout, then client error, then any exception); the match arms mirror
that order. -/
def make_request (ev : RequestEvent) (latency : ℚ) : TestResult :=
  match ev with
  | .response status => ⟨status == 200, latency, status, ""⟩
  | .timeoutError => ⟨false, latency, 0, "timeout"⟩
  | .clientError typeName => ⟨false, latency, 0, typeName⟩
  | .otherError msg => ⟨false, latency, 0, msg⟩

/-- The run configuration held by a `LoadTester` (constructor arguments,
lines 113-123). -/
structure RunConfig where
  target_url : String
  target_rps : ℚ
  duration_seconds : Int
  concurrency_limit : Int
deriving Repr, DecidableEq

/-- `LoadTester.__init__` (lines 113-125).  The Python constructor performs
no validation and cannot fail except by raising, which it never does: it
only strips trailing slashes from the URL and stores the fields.  The
`Option` result records whether the configuration is rejected (`none`)
or accepted (`some`); the source always accepts. -/
def LoadTester_init (target_url : String) (requests_per_second : ℚ)
    (duration_seconds : Int) (concurrent_limit : Int) : Option RunConfig :=
  some ⟨target_url.dropRightWhile (fun c => c = '/'),
        requests_per_second, duration_seconds, concurrent_limit⟩

/-- Python `int()` on a rational: truncation toward zero. -/
def pyInt (q : ℚ) : Int := if 0 ≤ q then ⌊q⌋ else ⌈q⌉

/-- `num_workers = min(int(self.rps / 10) + 1, 50)` (line 205). -/
def num_workers (rps : ℚ) : Int := min (pyInt (rps / 10) + 1) 50

/-- `worker_rps = self.rps / num_workers` (line 206). -/
def worker_rps (rps : ℚ) : ℚ := rps / ((num_workers rps : Int) : ℚ)

/-- `interval = 1.0 / self.rps` in `LoadTester._worker` (line 174), where
`self.rps` has been overridden to the per-worker rate.  Python raises
`ZeroDivisionError` when the rate is zero; the embedding returns `none`
there. -/
def worker_interval (rps : ℚ) : Option ℚ :=
  if rps = 0 then none else some (1 / rps)

/-- `self.stats.errors[error_key] = self.stats.errors.get(error_key, 0) + 1`
(line 248) on the insertion-ordered association list embedding of the dict:
increment the key's count, appending the key with count 1 when absent. -/
def bumpError (m : List (String × Nat)) (k : String) : List (String × Nat) :=
  match m with
  | [] => [(k, 1)]
  | (k', v) :: rest =>
      if k' = k then (k', v + 1) :: rest else (k', v) :: bumpError rest k

/-- `error_key = result.error or f"HTTP {result.status_code}"` (line 247):
the error string when non-empty (Python truthiness of a string), else the
HTTP-status key. -/
def error_key (r : TestResult) : String :=
  if r.error = "" then "HTTP " ++ toString r.status_code else r.error

/-- One iteration of the aggregation loop in `LoadTester.run`
(lines 239-248): count the request, record its latency, and tally it as
successful, or as failed under its error key. -/
def aggregate_one (s : TestStats) (r : TestResult) : TestStats :=
  { s with
    total_requests := s.total_requests + 1
    latencies := s.latencies ++ [r.latency_ms]
    successful_requests :=
      if r.success then s.successful_requests + 1 else s.successful_requests
    failed_requests :=
      if r.success then s.failed_requests else s.failed_requests + 1
    errors := if r.success then s.errors else bumpError s.errors (error_key r) }

/-- The whole aggregation pass of `LoadTester.run` (lines 198-248): start
from a fresh `TestStats` carrying the run's start and end times and fold
the collected results in order. -/
def aggregate (results : List TestResult) (start_t end_t : ℚ) : TestStats :=
  List.foldl aggregate_one ⟨0, 0, 0, [], [], start_t, end_t⟩ results

/-- Total failure count recorded in the error map: the sum of the counts
over all keys. -/
def errorTotal (m : List (String × Nat)) : Nat := (m.map Prod.snd).sum

/-- Concrete aggregate with the spec's five-element latency sample. -/
def statsFive : TestStats := ⟨5, 4, 1, [10, 20, 30, 40, 50], [("timeout", 1)], 0, 2⟩

/-- Concrete aggregate with the spec's single-element latency sample. -/
def statsOne : TestStats := ⟨1, 1, 0, [42], [], 0, 1⟩

/-- Concrete aggregate with an even-length latency sample. -/
def statsPair : TestStats := ⟨2, 2, 0, [10, 20], [], 0, 1⟩

/-- Concrete aggregate with no outcomes at all. -/
def statsEmpty : TestStats := ⟨0, 0, 0, [], [], 3, 3⟩

/-- The index `int(len * 0.95)` equals the natural division len * 95 / 100. -/
theorem floor_len_mul_95 (n : ℕ) : ⌊(n : ℚ) * (95 / 100)⌋₊ = n * 95 / 100 := by
  rw [show (n : ℚ) * (95 / 100) = ((n * 95 : ℕ) : ℚ) / ((100 : ℕ) : ℚ) by push_cast; ring,
    Nat.floor_div_nat, Nat.floor_natCast]

/-- The index `int(len * 0.99)` equals the natural division len * 99 / 100. -/
theorem floor_len_mul_99 (n : ℕ) : ⌊(n : ℚ) * (99 / 100)⌋₊ = n * 99 / 100 := by
  rw [show (n : ℚ) * (99 / 100) = ((n * 99 : ℕ) : ℚ) / ((100 : ℕ) : ℚ) by push_cast; ring,
    Nat.floor_div_nat, Nat.floor_natCast]

/-- The index `int(len * 0.5)` equals the natural division len / 2. -/
theorem floor_len_mul_50 (n : ℕ) : ⌊(n : ℚ) * (50 / 100)⌋₊ = n / 2 := by
  rw [show (n : ℚ) * (50 / 100) = ((n * 50 : ℕ) : ℚ) / ((100 : ℕ) : ℚ) by push_cast; ring,
    Nat.floor_div_nat, Nat.floor_natCast]
  omega

/-- Claim C1 fails as stated: the source computes p50 with
`statistics.median`, which interpolates on even-length samples.  On the
latencies [10, 20] the code returns (10 + 20) / 2 = 15, while the
nearest-rank rule of the claim (index = floor(2 × 0.5) = 1) returns 20. -/
theorem C1_counterexample :
    p50_latency statsPair = 15 ∧
    specNearestRank (50 / 100) statsPair.latencies = 20 ∧
    p50_latency statsPair ≠ specNearestRank (50 / 100) statsPair.latencies := by
  have h : statsPair.latencies ≠ [] := by simp [statsPair]
  have h1 : p50_latency statsPair = 15 := by
    simp only [p50_latency, if_neg h, pyMedian]
    norm_num [statsPair, List.insertionSort, List.orderedInsert, List.getD]
  have h2 : specNearestRank (50 / 100) statsPair.latencies = 20 := by
    simp only [specNearestRank, floor_len_mul_50]
    norm_num [statsPair, List.insertionSort, List.orderedInsert, List.getD]
  exact ⟨h1, h2, by rw [h1, h2]; norm_num⟩

/-- Claim C1 (amended): for every non-empty latency sample, p95 and p99
are computed by nearest-rank truncation (sort ascending, index =
floor(len × p), clamped to len − 1 for p99, return the element at that
index) and p50 coincides with the nearest-rank value on odd-length
samples; on even-length samples p50 is `statistics.median`, the average
of the two middle elements of the sorted sample (interpolation).  The
spec's examples hold: [10, 20, 30, 40, 50] gives p50 = 30, p95 = 50,
p99 = 50, and [42] returns 42 for every percentile. -/
theorem C1_percentiles (s : TestStats) (h : s.latencies ≠ []) :
    p95_latency s = specNearestRank (95 / 100) s.latencies ∧
    p99_latency s = specNearestRank99 s.latencies ∧
    (s.latencies.length % 2 = 1 →
      p50_latency s = specNearestRank (50 / 100) s.latencies) ∧
    (s.latencies.length % 2 = 0 →
      p50_latency s =
        ((List.insertionSort (fun a b => a ≤ b) s.latencies).getD
            (s.latencies.length / 2 - 1) 0 +
          (List.insertionSort (fun a b => a ≤ b) s.latencies).getD
            (s.latencies.length / 2) 0) / 2) := by
  refine ⟨?_, ?_, ?_, ?_⟩
  · simp only [p95_latency, specNearestRank, if_neg h, List.length_insertionSort]
  · simp only [p99_latency, specNearestRank99, if_neg h, List.length_insertionSort]
  · intro hodd
    simp only [p50_latency, pyMedian, specNearestRank, if_neg h, floor_len_mul_50,
      hodd, if_pos]
  · intro heven
    simp only [p50_latency, pyMedian, if_neg h]
    rw [if_neg (by omega)]

/-- Witness for C1: the amended theorem applied to the five-element sample,
together with the spec's concrete example values. -/
theorem C1_percentiles_witness :
    p95_latency statsFive = specNearestRank (95 / 100) statsFive.latencies ∧
    p50_latency statsFive = 30 ∧ p95_latency statsFive = 50 ∧ p99_latency statsFive = 50 ∧
    p50_latency statsOne = 42 ∧ p95_latency statsOne = 42 ∧ p99_latency statsOne = 42 := by
  have h5 : statsFive.latencies ≠ [] := by simp [statsFive]
  have h1 : statsOne.latencies ≠ [] := by simp [statsOne]
  refine ⟨(C1_percentiles statsFive h5).1, ?_, ?_, ?_, ?_, ?_, ?_⟩
  · simp only [p50_latency, if_neg h5, pyMedian]
    norm_num [statsFive, List.insertionSort, List.orderedInsert, List.getD]
  · simp only [p95_latency, if_neg h5, floor_len_mul_95]
    norm_num [statsFive, List.insertionSort, List.orderedInsert, List.getD]
  · simp only [p99_latency, if_neg h5, floor_len_mul_99]
    norm_num [statsFive, List.insertionSort, List.orderedInsert, List.getD]
  · simp only [p50_latency, if_neg h1, pyMedian]
    norm_num [statsOne, List.insertionSort, List.orderedInsert, List.getD]
  · simp only [p95_latency, if_neg h1, floor_len_mul_95]
    norm_num [statsOne, List.insertionSort, List.orderedInsert, List.getD]
  · simp only [p99_latency, if_neg h1, floor_len_mul_99]
    norm_num [statsOne, List.insertionSort, List.orderedInsert, List.getD]

/-- Claim C2 fails as stated: `LoadTester.__init__` performs no validation,
so a configuration with target_rps = 0 (which is ≤ 0) is accepted rather
than rejected before any worker starts. -/
theorem C2_counterexample :
    (0 : ℚ) ≤ 0 ∧
    (LoadTester_init "http://localhost:8080" 0 60 100).isSome = true :=
  ⟨le_refl 0, rfl⟩

/-- Claim C2 (amended): the constructor performs no validation and accepts
every configuration; nevertheless, when target_rps > 0 the divisions
per_worker_rps = target_rps / worker_count and interval = 1 / per_worker_rps
never divide by zero, because worker_count ≥ 1 and per_worker_rps ≠ 0. -/
theorem C2_no_validation (url : String) (rps : ℚ) (d c : Int) (h : 0 < rps) :
    (LoadTester_init url rps d c).isSome = true ∧
    ((num_workers rps : Int) : ℚ) ≠ 0 ∧
    worker_interval (worker_rps rps) ≠ none := by
  have hq : (0 : ℚ) ≤ rps / 10 := by positivity
  have hfl : 0 ≤ ⌊rps / 10⌋ := Int.floor_nonneg.mpr hq
  have h1 : 1 ≤ num_workers rps := by
    simp only [num_workers, pyInt, if_pos hq, le_min_iff]
    omega
  have hnz : ((num_workers rps : Int) : ℚ) ≠ 0 := by
    have hne : num_workers rps ≠ 0 := by omega
    exact_mod_cast hne
  have hwr : worker_rps rps ≠ 0 := div_ne_zero (ne_of_gt h) hnz
  exact ⟨rfl, hnz, by simp [worker_interval, hwr]⟩

/-- Witness for C2: the amended theorem at a concrete valid configuration. -/
theorem C2_no_validation_witness :
    (0 : ℚ) < 25 ∧
    (LoadTester_init "http://localhost:8080" 25 60 100).isSome = true ∧
    ((num_workers 25 : Int) : ℚ) ≠ 0 ∧
    worker_interval (worker_rps 25) ≠ none :=
  ⟨by norm_num, (C2_no_validation "http://localhost:8080" 25 60 100 (by norm_num)).1,
   (C2_no_validation "http://localhost:8080" 25 60 100 (by norm_num)).2.1,
   (C2_no_validation "http://localhost:8080" 25 60 100 (by norm_num)).2.2⟩

/-- Claim C3: for target_rps = R > 0 the pool computes
worker_count = min(floor(R / 10) + 1, 50), assigns each worker
per_worker_rps = R / worker_count, and the per-worker rates sum back to R
exactly (the embedding uses exact rationals). -/
theorem C3_worker_pool (R : ℚ) (h : 0 < R) :
    num_workers R = min (⌊R / 10⌋ + 1) 50 ∧
    worker_rps R = R / ((num_workers R : Int) : ℚ) ∧
    (List.replicate (num_workers R).toNat (worker_rps R)).sum = R := by
  have hq : (0 : ℚ) ≤ R / 10 := by positivity
  have hfl : 0 ≤ ⌊R / 10⌋ := Int.floor_nonneg.mpr hq
  have heq : num_workers R = min (⌊R / 10⌋ + 1) 50 := by
    simp [num_workers, pyInt, if_pos hq]
  have h1 : 1 ≤ num_workers R := by rw [heq]; simp only [le_min_iff]; omega
  have hnz : ((num_workers R : Int) : ℚ) ≠ 0 := by
    have hne : num_workers R ≠ 0 := by omega
    exact_mod_cast hne
  refine ⟨heq, rfl, ?_⟩
  rw [List.sum_replicate, nsmul_eq_mul]
  have hcast : (((num_workers R).toNat : ℕ) : ℚ) = ((num_workers R : Int) : ℚ) := by
    have := Int.toNat_of_nonneg (by omega : 0 ≤ num_workers R)
    exact_mod_cast congrArg (fun z : Int => (z : ℚ)) this
  rw [hcast, worker_rps]
  field_simp

/-- Witness for C3: at R = 25 the pool uses 3 workers and the per-worker
rates sum to 25. -/
theorem C3_worker_pool_witness :
    num_workers 25 = 3 ∧
    (List.replicate (num_workers 25).toNat (worker_rps 25)).sum = 25 := by
  have h := C3_worker_pool 25 (by norm_num)
  have hfl : ⌊(25 : ℚ) / 10⌋ = (2 : ℤ) := by
    rw [Int.floor_eq_iff]; norm_num
  refine ⟨?_, h.2.2⟩
  rw [h.1, hfl]
  norm_num

/-- Claim C4: success_rate equals successful / total × 100, is 0 when
total = 0, and lies in [0, 100] whenever successful ≤ total. -/
theorem C4_success_rate (s : TestStats)
    (h : s.successful_requests ≤ s.total_requests) :
    success_rate s =
      (if s.total_requests = 0 then 0
       else (s.successful_requests : ℚ) / (s.total_requests : ℚ) * 100) ∧
    0 ≤ success_rate s ∧ success_rate s ≤ 100 := by
  refine ⟨rfl, ?_, ?_⟩
  · unfold success_rate
    split
    · norm_num
    · positivity
  · unfold success_rate
    split
    · norm_num
    · rename_i ht
      have h0 : (0 : ℚ) < (s.total_requests : ℚ) := by
        exact_mod_cast Nat.pos_of_ne_zero ht
      rw [div_mul_eq_mul_div, div_le_iff₀ h0]
      have hc : (s.successful_requests : ℚ) ≤ (s.total_requests : ℚ) := by
        exact_mod_cast h
      nlinarith

/-- Witness for C4: success rate of 4 successes out of 5 requests is 80,
inside [0, 100]. -/
theorem C4_success_rate_witness :
    success_rate statsFive =
      (if statsFive.total_requests = 0 then 0
       else (statsFive.successful_requests : ℚ) / (statsFive.total_requests : ℚ) * 100) ∧
    0 ≤ success_rate statsFive ∧ success_rate statsFive ≤ 100 :=
  C4_success_rate statsFive (by norm_num [statsFive])

/-- Claim C5: requests_per_second is total / (end − start), and 0 when the
end time equals the start time (the source's duration == 0 test). -/
theorem C5_requests_per_second (s : TestStats) :
    (s.end_time = s.start_time → requests_per_second s = 0) ∧
    (s.end_time ≠ s.start_time →
      requests_per_second s = (s.total_requests : ℚ) / (s.end_time - s.start_time)) := by
  constructor
  · intro he
    simp [requests_per_second, he]
  · intro hne
    have hd : s.end_time - s.start_time ≠ 0 := sub_ne_zero_of_ne hne
    simp [requests_per_second, hd]

/-- Witness for C5: 5 requests over 2 seconds give 5/2 requests per
second. -/
theorem C5_requests_per_second_witness :
    requests_per_second statsFive =
      (statsFive.total_requests : ℚ) / (statsFive.end_time - statsFive.start_time) ∧
    requests_per_second statsFive = 5 / 2 := by
  have h := (C5_requests_per_second statsFive).2 (by norm_num [statsFive])
  refine ⟨h, ?_⟩
  rw [h]
  norm_num [statsFive]

/-- Claim C6: a request that receives an HTTP response is classified with
success = (status == 200) and an empty error string, so during aggregation
a failed response is keyed by "HTTP " followed by its status code; in
particular a 404 response yields success = false, an empty error string,
and one count under the key "HTTP 404". -/
theorem C6_http_classification (status : Nat) (lat : ℚ) :
    (make_request (.response status) lat).success = (status == 200) ∧
    (make_request (.response status) lat).error = "" ∧
    error_key (make_request (.response status) lat) = "HTTP " ++ toString status ∧
    (make_request (.response 404) lat).success = false ∧
    error_key (make_request (.response 404) lat) = "HTTP 404" ∧
    (aggregate [make_request (.response 404) lat] 0 1).errors = [("HTTP 404", 1)] := by
  refine ⟨rfl, rfl, by simp [error_key, make_request], rfl,
    by simp [error_key, make_request]; rfl, ?_⟩
  simp only [aggregate, aggregate_one, make_request, bumpError, error_key,
    List.foldl_cons, List.foldl_nil]
  norm_num
  rfl

/-- Claim C8: every observable request event is classified into a
`TestResult` by a total function (the embedding of the `try`/`except`
ladder), so no exception escapes `_make_request`: a timeout gives
error "timeout", a transport (client) error gives its exception type name,
and any other exception gives its message, each with success = false. -/
theorem C8_exception_classification (lat : ℚ) (typeName msg : String) :
    (make_request .timeoutError lat).success = false ∧
    (make_request .timeoutError lat).error = "timeout" ∧
    (make_request (.clientError typeName) lat).success = false ∧
    (make_request (.clientError typeName) lat).error = typeName ∧
    (make_request (.otherError msg) lat).success = false ∧
    (make_request (.otherError msg) lat).error = msg :=
  ⟨rfl, rfl, rfl, rfl, rfl, rfl⟩

/-- Incrementing one key of the error map raises the total error count by
exactly one. -/
theorem errorTotal_bumpError (m : List (String × Nat)) (k : String) :
    errorTotal (bumpError m k) = errorTotal m + 1 := by
  induction m with
  | nil => simp [bumpError, errorTotal]
  | cons p rest ih =>
      obtain ⟨k', v⟩ := p
      by_cases hk : k' = k
      · simp [bumpError, hk, errorTotal]
        omega
      · simp only [bumpError, if_neg hk, errorTotal, List.map_cons, List.sum_cons]
        have := ih
        simp only [errorTotal] at this
        omega

/-- The aggregation loop preserves the invariant that the error-map total
equals the failed-request count. -/
theorem aggregate_errors_invariant (results : List TestResult) (init : TestStats)
    (h : errorTotal init.errors = init.failed_requests) :
    errorTotal (List.foldl aggregate_one init results).errors =
      (List.foldl aggregate_one init results).failed_requests := by
  induction results generalizing init with
  | nil => exact h
  | cons r rest ih =>
      apply ih
      by_cases hs : r.success
      · simp [aggregate_one, hs, h]
      · simp [aggregate_one, hs, errorTotal_bumpError, h]

/-- Claim C7: after aggregating any sequence of outcomes, the counts in
the error map sum to exactly the failed-request count — each failed
outcome increments exactly one key and successful outcomes increment
none. -/
theorem C7_error_counts (results : List TestResult) (s e : ℚ) :
    errorTotal (aggregate results s e).errors = (aggregate results s e).failed_requests :=
  aggregate_errors_invariant results _ rfl

/-- Claim C9: on an empty latency sample every derived latency metric
returns 0 rather than failing. -/
theorem C9_empty_latencies (s : TestStats) (h : s.latencies = []) :
    avg_latency s = 0 ∧ p50_latency s = 0 ∧ p95_latency s = 0 ∧ p99_latency s = 0 := by
  simp [avg_latency, p50_latency, p95_latency, p99_latency, h]

/-- Witness for C9: the zero-outcome aggregate has all latency metrics 0. -/
theorem C9_empty_latencies_witness :
    statsEmpty.latencies = [] ∧
    avg_latency statsEmpty = 0 ∧ p50_latency statsEmpty = 0 ∧
    p95_latency statsEmpty = 0 ∧ p99_latency statsEmpty = 0 :=
  ⟨rfl, (C9_empty_latencies statsEmpty rfl).1, (C9_empty_latencies statsEmpty rfl).2.1,
   (C9_empty_latencies statsEmpty rfl).2.2.1, (C9_empty_latencies statsEmpty rfl).2.2.2⟩

/-- The aggregation loop preserves the invariants total = successful +
failed and total = number of recorded latencies. -/
theorem aggregate_counts_invariant (results : List TestResult) (init : TestStats)
    (h1 : init.total_requests = init.successful_requests + init.failed_requests)
    (h2 : init.total_requests = init.latencies.length) :
    (List.foldl aggregate_one init results).total_requests =
        (List.foldl aggregate_one init results).successful_requests +
          (List.foldl aggregate_one init results).failed_requests ∧
    (List.foldl aggregate_one init results).total_requests =
        (List.foldl aggregate_one init results).latencies.length := by
  induction results generalizing init with
  | nil => exact ⟨h1, h2⟩
  | cons r rest ih =>
      apply ih
      · by_cases hs : r.success <;> simp [aggregate_one, hs, h1] <;> omega
      · by_cases hs : r.success <;> simp [aggregate_one, hs, h2]

/-- Claim C10: after aggregating any sequence of outcomes,
total_requests = successful_requests + failed_requests and total_requests
equals the number of recorded latencies — each outcome contributes one
latency entry and is counted as exactly one of successful or failed. -/
theorem C10_totals (results : List TestResult) (s e : ℚ) :
    (aggregate results s e).total_requests =
        (aggregate results s e).successful_requests +
          (aggregate results s e).failed_requests ∧
    (aggregate results s e).total_requests =
        (aggregate results s e).latencies.length :=
  aggregate_counts_invariant results _ rfl rfl
